import Mathlib

/-!
Shallow embedding of the registration admission core of the event-RSVP backend:
the Prisma data model (events, invites, attendees, plus_ones), the invitation
validation of `InviteService.validateToken`, and the admission pipeline of
`RsvpService` (`checkCapacity`, `submitRsvp`, `cancelRsvp`).

The database is modelled as lists of rows; `findUnique` becomes `List.find?`
on the unique key and `update` becomes a `List.map` that rewrites the matching
row.  Nondeterministic inputs of the code — the wall clock, the generated
identifiers (`generateRegistrationId`, `generateQrCode`, store-assigned row
ids) and the success or failure of each external collaborator call (email,
QR rendering, calendar rendering, sheet sync, store commit) — are passed in
as explicit parameters.  Display-only columns of the rows (venue, date,
dress code, …), which the service merely copies into responses and emails,
are omitted; every column that any control-flow decision reads is kept.
-/

namespace EventRsvp

/-- Attendee status enum of the Prisma schema (`AttendeeStatus`). -/
inductive AttendeeStatus where
  | CONFIRMED
  | WAITLISTED
  | CANCELLED
deriving DecidableEq, Repr

/-- Row of the `events` table; display-only columns are omitted.
`capacity` and `currentRegistrations` are `INTEGER` columns, so they are
modelled as unbounded `Int` (the store applies no range constraint). -/
structure Event where
  id : String
  eventName : String
  capacity : Int
  currentRegistrations : Int
  waitlistEnabled : Bool
  registrationOpen : Bool
deriving DecidableEq, Repr

/-- Row of the `invites` table; `expiresAt` is a timestamp, modelled as `Nat`
milliseconds. -/
structure Invite where
  id : String
  email : String
  token : String
  isUsed : Bool
  expiresAt : Nat
  eventId : String
deriving DecidableEq, Repr

/-- Row of the `attendees` table. -/
structure Attendee where
  id : String
  name : String
  company : String
  title : String
  email : String
  status : AttendeeStatus
  qrCode : String
  registrationId : String
  inviteId : String
  eventId : String
deriving DecidableEq, Repr

/-- Row of the `plus_ones` table (`attendeeId` carries the unique index). -/
structure PlusOne where
  id : String
  name : String
  company : String
  title : String
  email : String
  qrCode : String
  registrationId : String
  attendeeId : String
deriving DecidableEq, Repr

/-- Companion payload of `CreateRsvpDto.plusOne`. -/
structure PlusOneDto where
  name : String
  company : String
  title : String
  email : String
deriving DecidableEq, Repr

/-- Request body of `submitRsvp` (`CreateRsvpDto`). -/
structure CreateRsvpDto where
  token : String
  name : String
  company : String
  title : String
  email : String
  plusOne : Option PlusOneDto
deriving DecidableEq, Repr

/-- The relational store: one list of rows per table. -/
structure Db where
  events : List Event
  invites : List Invite
  attendees : List Attendee
  plusOnes : List PlusOne
deriving DecidableEq, Repr

/-- Errors thrown by the services.  `NotFoundException` and
`BadRequestException` are the NestJS exceptions the code throws with the
quoted message; `StoreFailure` stands for the store's own error when a
`prisma.$transaction` cannot commit (the code does not catch it, and the
store rolls the transaction back). -/
inductive ApiError where
  | NotFoundException (msg : String)
  | BadRequestException (msg : String)
  | StoreFailure
deriving DecidableEq, Repr

/-- Lookup of `prisma.event.findUnique({ where: { id } })`. -/
def findEvent (db : Db) (eventId : String) : Option Event :=
  db.events.find? (fun e => e.id == eventId)

/-- Embeds `InviteService.validateToken`: find the invite by token, then fail
on `isUsed`, then fail on expiry (`new Date() > invite.expiresAt`), in that
order. -/
def validateToken (db : Db) (now : Nat) (token : String) : Except ApiError Invite :=
  match db.invites.find? (fun i => i.token == token) with
  | none => .error (.NotFoundException "Invalid invite token")
  | some invite =>
    if invite.isUsed then
      .error (.BadRequestException "Invite token has already been used")
    else if invite.expiresAt < now then
      .error (.BadRequestException "Invite token has expired")
    else
      .ok invite

/-- Embeds `RsvpService.checkCapacity`: read the event, fail when absent,
otherwise report whether `capacity - currentRegistrations >= requiredSlots`. -/
def checkCapacity (db : Db) (eventId : String) (includesPlusOne : Bool) :
    Except ApiError Bool :=
  match findEvent db eventId with
  | none => .error (.BadRequestException "Event not found")
  | some event =>
    let requiredSlots : Int := if includesPlusOne then 2 else 1
    let availableSlots : Int := event.capacity - event.currentRegistrations
    .ok (decide (requiredSlots ≤ availableSlots))

/-- Fresh identifiers consumed by one `submitRsvp` call: the service's
`generateRegistrationId` and `generateQrCode` results and the store-assigned
row ids.  They are nondeterministic (clock and crypto randomness), so the
embedding takes them as an input. -/
structure IdGen where
  attendeeId : String
  registrationId : String
  qrCode : String
  plusOneId : String
  plusOneQrCode : String
deriving DecidableEq, Repr

/-- The post-commit side-effect calls `submitRsvp` can make (steps 8 and 9). -/
inductive Dispatch where
  | generateCalendarFile
  | generateQrCodeImagePrimary
  | sendConfirmationEmail
  | generateQrCodeImagePlusOne
  | sendPlusOneConfirmationEmail
  | sendWaitlistEmail
  | addAttendeeToSheet
deriving DecidableEq, Repr

/-- Outcome of each external collaborator call: `true` means the call
returns, `false` means it throws. -/
structure FxOracle where
  generateCalendarFileOk : Bool
  generateQrCodeImagePrimaryOk : Bool
  sendConfirmationEmailOk : Bool
  generateQrCodeImagePlusOneOk : Bool
  sendPlusOneConfirmationEmailOk : Bool
  sendWaitlistEmailOk : Bool
  addAttendeeToSheetOk : Bool
deriving DecidableEq, Repr

/-- Oracle in which every collaborator call succeeds. -/
def fxAllOk : FxOracle :=
  ⟨true, true, true, true, true, true, true⟩

/-- The dispatches attempted by step 8 of `submitRsvp` (the single
`try { … } catch (emailError)` block): on a CONFIRMED outcome, calendar
generation, then the primary QR image, then the primary confirmation email,
then — only when a plus-one exists — the plus-one QR image and the plus-one
confirmation email, each attempted only if everything before it in the block
returned; on a WAITLISTED outcome, just the waitlist email.  A throw anywhere
aborts the rest of the block and is swallowed by the catch. -/
def emailDispatches (fx : FxOracle) (status : AttendeeStatus) (hasPlusOne : Bool) :
    List Dispatch :=
  if status = .CONFIRMED then
    [.generateCalendarFile] ++
      (if fx.generateCalendarFileOk then
        [.generateQrCodeImagePrimary] ++
          (if fx.generateQrCodeImagePrimaryOk then
            [.sendConfirmationEmail] ++
              (if fx.sendConfirmationEmailOk then
                (if hasPlusOne then
                  [.generateQrCodeImagePlusOne] ++
                    (if fx.generateQrCodeImagePlusOneOk then
                      [.sendPlusOneConfirmationEmail]
                    else [])
                else [])
              else [])
          else [])
      else [])
  else
    [.sendWaitlistEmail]

/-- Steps 1–4 of `RsvpService.submitRsvp`: validate the invite token,
re-check `invite.isUsed`, compute `requiredSlots` from the plus-one presence,
call `checkCapacity`, and decide the status.  These are the reads and the
admission decision, all performed before the write transaction of step 6. -/
def submitDecide (db : Db) (now : Nat) (rsvpData : CreateRsvpDto) :
    Except ApiError (Invite × Int × AttendeeStatus) :=
  match validateToken db now rsvpData.token with
  | .error e => .error e
  | .ok invite =>
    if invite.isUsed then
      .error (.BadRequestException "This invite has already been used")
    else
      let requiredSlots : Int := if rsvpData.plusOne.isSome then 2 else 1
      match checkCapacity db invite.eventId rsvpData.plusOne.isSome with
      | .error e => .error e
      | .ok hasCapacity =>
        let status := if hasCapacity then AttendeeStatus.CONFIRMED
                      else AttendeeStatus.WAITLISTED
        .ok (invite, requiredSlots, status)

/-- Body of the `prisma.$transaction` block of `submitRsvp` (step 6): create
the attendee row, create the plus-one row when requested, mark the invite
used, and increment `currentRegistrations` by `requiredSlots` exactly when
the outcome is CONFIRMED. -/
def submitTransaction (db : Db) (gen : IdGen) (rsvpData : CreateRsvpDto)
    (invite : Invite) (requiredSlots : Int) (status : AttendeeStatus) :
    Attendee × Option PlusOne × Db :=
  let attendee : Attendee :=
    { id := gen.attendeeId
      name := rsvpData.name
      company := rsvpData.company
      title := rsvpData.title
      email := rsvpData.email
      status := status
      qrCode := gen.qrCode
      registrationId := gen.registrationId
      inviteId := invite.id
      eventId := invite.eventId }
  let plusOne : Option PlusOne :=
    match rsvpData.plusOne with
    | none => none
    | some p =>
      some { id := gen.plusOneId
             name := p.name
             company := p.company
             title := p.title
             email := p.email
             qrCode := gen.plusOneQrCode
             registrationId := gen.registrationId ++ "-P1"
             attendeeId := gen.attendeeId }
  let db1 : Db :=
    { db with
      attendees := db.attendees ++ [attendee]
      plusOnes := db.plusOnes ++ plusOne.toList }
  let db2 : Db :=
    { db1 with
      invites := db1.invites.map (fun i =>
        if i.id == invite.id then { i with isUsed := true } else i) }
  let db3 : Db :=
    if status = .CONFIRMED then
      { db2 with
        events := db2.events.map (fun e =>
          if e.id == invite.eventId then
            { e with currentRegistrations := e.currentRegistrations + requiredSlots }
          else e) }
    else db2
  (attendee, plusOne, db3)

/-- Response of `submitRsvp` (`RegistrationResponseDto`): the created rows,
the refetched event snapshot whose columns the code copies into the payload,
and the `isWaitlisted` flag. -/
structure RegistrationResponse where
  attendee : Attendee
  plusOne : Option PlusOne
  event : Event
  isWaitlisted : Bool
deriving DecidableEq, Repr

/-- Embeds `RsvpService.submitRsvp`.  Returns the thrown exception or the
response, the resulting store state, and the list of side-effect dispatches
that were attempted.  `txOk` is the store's verdict on the step-6 transaction:
when `false` the transaction throws and the store rolls all its writes back.
Note that step 7 refetches the event after the transaction has committed, so
its (unreachable, see the theorems below) failure branch surfaces an error
while keeping the committed state. -/
def submitRsvp (db : Db) (now : Nat) (gen : IdGen) (txOk : Bool) (fx : FxOracle)
    (rsvpData : CreateRsvpDto) :
    Except ApiError RegistrationResponse × Db × List Dispatch :=
  match submitDecide db now rsvpData with
  | .error e => (.error e, db, [])
  | .ok (invite, requiredSlots, status) =>
    if txOk then
      match findEvent (submitTransaction db gen rsvpData invite requiredSlots status).2.2
          invite.eventId with
      | none =>
        (.error (.BadRequestException "Event not found"),
         (submitTransaction db gen rsvpData invite requiredSlots status).2.2, [])
      | some event =>
        (.ok { attendee := (submitTransaction db gen rsvpData invite requiredSlots status).1
               plusOne := (submitTransaction db gen rsvpData invite requiredSlots status).2.1
               event := event
               isWaitlisted := decide (status = .WAITLISTED) },
         (submitTransaction db gen rsvpData invite requiredSlots status).2.2,
         emailDispatches fx status rsvpData.plusOne.isSome ++ [.addAttendeeToSheet])
    else
      (.error .StoreFailure, db, [])

/-- Party size released by a cancellation: `attendee.plusOne ? 2 : 1`, where
the plus-one is looked up through the unique `attendeeId` index. -/
def partySize (db : Db) (attendeeId : String) : Int :=
  if (db.plusOnes.find? (fun p => p.attendeeId == attendeeId)).isSome then 2 else 1

/-- Embeds `RsvpService.cancelRsvp`: fail when the attendee is absent, fail
when already CANCELLED, otherwise set the status to CANCELLED and, exactly
when the prior status was CONFIRMED, decrement `currentRegistrations` by the
party size, both inside one transaction. -/
def cancelRsvp (db : Db) (attendeeId : String) : Except ApiError Db :=
  match db.attendees.find? (fun a => a.id == attendeeId) with
  | none => .error (.BadRequestException "Registration not found")
  | some attendee =>
    if attendee.status = .CANCELLED then
      .error (.BadRequestException "Registration is already cancelled")
    else
      let slotsToFree : Int := partySize db attendeeId
      let db1 : Db :=
        { db with
          attendees := db.attendees.map (fun a =>
            if a.id == attendeeId then { a with status := .CANCELLED } else a) }
      let db2 : Db :=
        if attendee.status = .CONFIRMED then
          { db1 with
            events := db1.events.map (fun e =>
              if e.id == attendee.eventId then
                { e with currentRegistrations := e.currentRegistrations - slotsToFree }
              else e) }
        else db1
      .ok db2

/-- Interleaved execution of two `submitRsvp` calls in which both admission
decisions (steps 1–4, including the `checkCapacity` read) run against the
initial state before either step-6 transaction commits.  The code permits
this interleaving because the capacity check runs outside the write
transaction, with no conditional update and no re-check inside it. -/
def interleavedSubmit2 (db : Db) (now : Nat) (gen1 gen2 : IdGen)
    (d1 d2 : CreateRsvpDto) : Option (AttendeeStatus × AttendeeStatus × Db) :=
  match submitDecide db now d1, submitDecide db now d2 with
  | .ok (i1, r1, s1), .ok (i2, r2, s2) =>
    let dbA := (submitTransaction db gen1 d1 i1 r1 s1).2.2
    let dbB := (submitTransaction dbA gen2 d2 i2 r2 s2).2.2
    some (s1, s2, dbB)
  | _, _ => none

/-- The per-event counter invariant of the spec:
`0 ≤ currentRegistrations ≤ capacity`. -/
def eventInv (e : Event) : Prop :=
  0 ≤ e.currentRegistrations ∧ e.currentRegistrations ≤ e.capacity

instance (e : Event) : Decidable (eventInv e) := by
  unfold eventInv; infer_instance

/-! Concrete fixtures for the counterexample and scenario theorems. -/

/-- Event of the cancellation counterexample: counter 1, capacity 10. -/
def c1Event : Event :=
  { id := "e1", eventName := "Gala", capacity := 10, currentRegistrations := 1,
    waitlistEnabled := true, registrationOpen := true }

/-- A CONFIRMED attendee of `c1Event` that has a plus-one. -/
def c1Att : Attendee :=
  { id := "a1", name := "Ann", company := "Acme", title := "CTO",
    email := "ann@acme.test", status := .CONFIRMED, qrCode := "qr-a1",
    registrationId := "REG-00000001", inviteId := "i1", eventId := "e1" }

/-- The plus-one row attached to `c1Att`. -/
def c1Po : PlusOne :=
  { id := "p1", name := "Bob", company := "Acme", title := "COO",
    email := "bob@acme.test", qrCode := "qr-p1",
    registrationId := "REG-00000001-P1", attendeeId := "a1" }

/-- Store of the cancellation counterexample. -/
def c1Db : Db :=
  { events := [c1Event], invites := [], attendees := [c1Att], plusOnes := [c1Po] }

/-- Event with a single seat, used by the interleaving counterexample. -/
def c2Event : Event :=
  { id := "e1", eventName := "Salon", capacity := 1, currentRegistrations := 0,
    waitlistEnabled := true, registrationOpen := true }

/-- First unused, unexpired invite for `c2Event`. -/
def c2Inv1 : Invite :=
  { id := "i1", email := "one@guests.test", token := "t1", isUsed := false,
    expiresAt := 100, eventId := "e1" }

/-- Second unused, unexpired invite for `c2Event`. -/
def c2Inv2 : Invite :=
  { id := "i2", email := "two@guests.test", token := "t2", isUsed := false,
    expiresAt := 100, eventId := "e1" }

/-- Store of the interleaving counterexample. -/
def c2Db : Db :=
  { events := [c2Event], invites := [c2Inv1, c2Inv2], attendees := [], plusOnes := [] }

/-- First single-seat submission (token `t1`, no plus-one). -/
def c2Dto1 : CreateRsvpDto :=
  { token := "t1", name := "One", company := "A", title := "x",
    email := "one@guests.test", plusOne := none }

/-- Second single-seat submission (token `t2`, no plus-one). -/
def c2Dto2 : CreateRsvpDto :=
  { token := "t2", name := "Two", company := "B", title := "y",
    email := "two@guests.test", plusOne := none }

/-- Identifiers consumed by the first interleaved submission. -/
def c2GenA : IdGen :=
  { attendeeId := "a1", registrationId := "REG-1", qrCode := "q1",
    plusOneId := "p1", plusOneQrCode := "pq1" }

/-- Identifiers consumed by the second interleaved submission. -/
def c2GenB : IdGen :=
  { attendeeId := "a2", registrationId := "REG-2", qrCode := "q2",
    plusOneId := "p2", plusOneQrCode := "pq2" }

/-- Full event with the waitlist switched off. -/
def c5Event : Event :=
  { id := "e1", eventName := "Dinner", capacity := 1, currentRegistrations := 1,
    waitlistEnabled := false, registrationOpen := true }

/-- Valid invite for the full, waitlist-disabled `c5Event`. -/
def c5Inv : Invite :=
  { id := "i1", email := "c@guests.test", token := "t1", isUsed := false,
    expiresAt := 100, eventId := "e1" }

/-- Store of the waitlist-policy theorem. -/
def c5Db : Db :=
  { events := [c5Event], invites := [c5Inv], attendees := [], plusOnes := [] }

/-- Submission against `c5Event` (no plus-one). -/
def c5Dto : CreateRsvpDto :=
  { token := "t1", name := "Cay", company := "C", title := "z",
    email := "c@guests.test", plusOne := none }

/-- Identifiers for the waitlist-policy submission. -/
def c5Gen : IdGen :=
  { attendeeId := "a1", registrationId := "REG-5", qrCode := "q5",
    plusOneId := "p5", plusOneQrCode := "pq5" }

/-- Roomy event used by the side-effect counterexample. -/
def c9Event : Event :=
  { id := "e1", eventName := "Expo", capacity := 10, currentRegistrations := 0,
    waitlistEnabled := true, registrationOpen := true }

/-- Valid invite for `c9Event`. -/
def c9Inv : Invite :=
  { id := "i1", email := "d@guests.test", token := "t1", isUsed := false,
    expiresAt := 100, eventId := "e1" }

/-- Store of the side-effect counterexample. -/
def c9Db : Db :=
  { events := [c9Event], invites := [c9Inv], attendees := [], plusOnes := [] }

/-- Submission with a companion, used by the side-effect counterexample. -/
def c9Dto : CreateRsvpDto :=
  { token := "t1", name := "Dee", company := "D", title := "w",
    email := "d@guests.test",
    plusOne := some { name := "Eve", company := "D", title := "v",
                      email := "eve@guests.test" } }

/-- Identifiers for the side-effect counterexample submission. -/
def c9Gen : IdGen :=
  { attendeeId := "a1", registrationId := "REG-9", qrCode := "q9",
    plusOneId := "p9", plusOneQrCode := "pq9" }

/-- Oracle in which only the primary confirmation email throws. -/
def c9Fx : FxOracle :=
  { fxAllOk with sendConfirmationEmailOk := false }

/-- Oracle in which only the calendar-artifact generation throws. -/
def c9FxCal : FxOracle :=
  { fxAllOk with generateCalendarFileOk := false }

/-- Submission with a token that matches no invite. -/
def c4Dto : CreateRsvpDto :=
  { token := "missing", name := "Nob", company := "N", title := "t",
    email := "nob@guests.test", plusOne := none }

/-- Event whose counter (2) covers the seats of the registered party. -/
def c1WEvent : Event :=
  { id := "e1", eventName := "Gala", capacity := 10, currentRegistrations := 2,
    waitlistEnabled := true, registrationOpen := true }

/-- Store in which the counter counts the confirmed party of `c1Att`. -/
def c1WDb : Db :=
  { events := [c1WEvent], invites := [], attendees := [c1Att], plusOnes := [c1Po] }

/-- Store committed by cancelling `c1Att` in `c1WDb`: the attendee is
CANCELLED and the counter dropped by the party size 2. -/
def c1WDb1 : Db :=
  { events := [{ c1WEvent with currentRegistrations := 0 }], invites := [],
    attendees := [{ c1Att with status := .CANCELLED }], plusOnes := [c1Po] }

/-- Invite that is both used and expired: validation must report AlreadyUsed
because the used-state check precedes the expiry check. -/
def c6Inv : Invite :=
  { id := "i6", email := "f@guests.test", token := "t6", isUsed := true,
    expiresAt := 10, eventId := "e1" }

/-- Store of the used-and-expired validation scenario. -/
def c6Db : Db :=
  { events := [c9Event], invites := [c6Inv], attendees := [], plusOnes := [] }

/-- An already-CANCELLED attendee. -/
def c7Att : Attendee :=
  { id := "a1", name := "Gon", company := "G", title := "u",
    email := "gon@guests.test", status := .CANCELLED, qrCode := "qr-g1",
    registrationId := "REG-00000007", inviteId := "i1", eventId := "e1" }

/-- Store of the re-cancellation scenario. -/
def c7Db : Db :=
  { events := [c9Event], invites := [], attendees := [c7Att], plusOnes := [] }


/-! Helper lemmas about the store primitives. -/

/-- `List.find?` commutes with mapping a row-rewriting function that never
changes the predicate verdict (updates keyed on one column do not disturb
lookups on another). -/
theorem find?_map_pres {α : Type} (p : α → Bool) (f : α → α)
    (h : ∀ a, p (f a) = p a) :
    ∀ l : List α, (l.map f).find? p = Option.map f (l.find? p)
  | [] => rfl
  | a :: t => by
    cases hpa : p a with
    | true =>
      rw [List.map_cons, List.find?_cons_of_pos _ (by rw [h a, hpa]),
          List.find?_cons_of_pos _ hpa]
      rfl
    | false =>
      rw [List.map_cons, List.find?_cons_of_neg _ (by simp [h a, hpa]),
          List.find?_cons_of_neg _ (by simp [hpa]), find?_map_pres p f h t]

/-- Successful validation pins down what was read: the token lookup returned
this invite, it is unused, and it is unexpired. -/
theorem validateToken_ok {db : Db} {now : Nat} {token : String} {inv : Invite}
    (h : validateToken db now token = .ok inv) :
    db.invites.find? (fun i => i.token == token) = some inv ∧
    inv.isUsed = false ∧ ¬ inv.expiresAt < now := by
  unfold validateToken at h
  split at h
  · cases h
  next i hf =>
    split at h
    · cases h
    next hu =>
      split at h
      · cases h
      next he =>
        injection h with h2
        subst h2
        exact ⟨hf, by simpa using hu, he⟩

/-- Successful admission decision pins down the reads: the invite validated,
the event exists, the requested slots follow the plus-one presence, and the
status is CONFIRMED exactly when the available seats cover the request. -/
theorem submitDecide_ok {db : Db} {now : Nat} {d : CreateRsvpDto}
    {inv : Invite} {req : Int} {st : AttendeeStatus}
    (h : submitDecide db now d = .ok (inv, req, st)) :
    validateToken db now d.token = .ok inv ∧
    req = (if d.plusOne.isSome then 2 else 1) ∧
    ∃ ev, findEvent db inv.eventId = some ev ∧
      st = (if req ≤ ev.capacity - ev.currentRegistrations then
              AttendeeStatus.CONFIRMED else AttendeeStatus.WAITLISTED) := by
  unfold submitDecide at h
  split at h
  · cases h
  next invite hv =>
    split at h
    · cases h
    next hu =>
      unfold checkCapacity at h
      split at h
      next hp =>
        split at h
        · cases h
        next hc hcap =>
          split at hcap
          · cases hcap
          next ev hev =>
            injection hcap with hcap2
            subst hcap2
            simp only [Except.ok.injEq, Prod.mk.injEq] at h
            obtain ⟨h1, h2, h3⟩ := h
            subst h1
            refine ⟨hv, ?_, ev, hev, ?_⟩
            · simp [hp, ← h2]
            · rw [← h3, ← h2]
              simp
      next hp =>
        split at h
        · cases h
        next hc hcap =>
          split at hcap
          · cases hcap
          next ev hev =>
            injection hcap with hcap2
            subst hcap2
            simp only [Except.ok.injEq, Prod.mk.injEq] at h
            obtain ⟨h1, h2, h3⟩ := h
            subst h1
            refine ⟨hv, ?_, ev, hev, ?_⟩
            · simp [hp, ← h2]
            · rw [← h3, ← h2]
              simp

/-- Events list after the step-6 transaction: bumped by `requiredSlots` on
the matching id exactly when the outcome is CONFIRMED. -/
theorem submitTransaction_events (db : Db) (gen : IdGen) (d : CreateRsvpDto)
    (inv : Invite) (req : Int) (st : AttendeeStatus) :
    (submitTransaction db gen d inv req st).2.2.events =
      (if st = .CONFIRMED then
        db.events.map (fun e =>
          if e.id == inv.eventId then
            { e with currentRegistrations := e.currentRegistrations + req }
          else e)
      else db.events) := by
  unfold submitTransaction
  by_cases hst : st = .CONFIRMED <;> simp [hst]

/-- Invites list after the step-6 transaction: `isUsed` is set on the rows
whose id matches the consumed invite, whatever the outcome. -/
theorem submitTransaction_invites (db : Db) (gen : IdGen) (d : CreateRsvpDto)
    (inv : Invite) (req : Int) (st : AttendeeStatus) :
    (submitTransaction db gen d inv req st).2.2.invites =
      db.invites.map (fun i =>
        if i.id == inv.id then { i with isUsed := true } else i) := by
  unfold submitTransaction
  by_cases hst : st = .CONFIRMED <;> simp [hst]

/-- The attendee row created by the step-6 transaction. -/
theorem submitTransaction_attendee (db : Db) (gen : IdGen) (d : CreateRsvpDto)
    (inv : Invite) (req : Int) (st : AttendeeStatus) :
    (submitTransaction db gen d inv req st).1 =
      { id := gen.attendeeId, name := d.name, company := d.company,
        title := d.title, email := d.email, status := st, qrCode := gen.qrCode,
        registrationId := gen.registrationId, inviteId := inv.id,
        eventId := inv.eventId } := rfl

/-- The plus-one row created by the step-6 transaction: present exactly when
the request carries a companion, owned by the created attendee. -/
theorem submitTransaction_plusOne (db : Db) (gen : IdGen) (d : CreateRsvpDto)
    (inv : Invite) (req : Int) (st : AttendeeStatus) :
    (submitTransaction db gen d inv req st).2.1 =
      d.plusOne.map (fun p =>
        { id := gen.plusOneId, name := p.name, company := p.company,
          title := p.title, email := p.email, qrCode := gen.plusOneQrCode,
          registrationId := gen.registrationId ++ "-P1",
          attendeeId := gen.attendeeId }) := by
  unfold submitTransaction
  cases d.plusOne <;> rfl

/-- Event lookups after the step-6 transaction commute with the conditional
increment. -/
theorem submitTransaction_findEvent (db : Db) (gen : IdGen) (d : CreateRsvpDto)
    (inv : Invite) (req : Int) (st : AttendeeStatus) (eid : String) :
    findEvent (submitTransaction db gen d inv req st).2.2 eid =
      Option.map (fun e =>
        if st = .CONFIRMED ∧ (e.id == inv.eventId) = true then
          { e with currentRegistrations := e.currentRegistrations + req }
        else e)
        (findEvent db eid) := by
  unfold findEvent
  rw [submitTransaction_events]
  by_cases hst : st = .CONFIRMED
  · subst hst
    rw [if_pos rfl]
    have hpred : ∀ e : Event,
        (((if e.id == inv.eventId then
            { e with currentRegistrations := e.currentRegistrations + req }
          else e).id == eid)) = (e.id == eid) := by
      intro e
      by_cases h2 : (e.id == inv.eventId) = true <;> simp [h2]
    rw [find?_map_pres _ _ hpred]
    cases db.events.find? (fun e => e.id == eid) with
    | none => rfl
    | some e => by_cases h2 : (e.id == inv.eventId) = true <;> simp [h2]
  · rw [if_neg hst]
    cases db.events.find? (fun e => e.id == eid) with
    | none => rfl
    | some e => simp [hst]

/-- Invite lookups by token after the step-6 transaction commute with the
`isUsed` update. -/
theorem submitTransaction_findInvite (db : Db) (gen : IdGen) (d : CreateRsvpDto)
    (inv : Invite) (req : Int) (st : AttendeeStatus) (tok : String) :
    (submitTransaction db gen d inv req st).2.2.invites.find?
        (fun i => i.token == tok) =
      Option.map (fun i =>
          if i.id == inv.id then { i with isUsed := true } else i)
        (db.invites.find? (fun i => i.token == tok)) := by
  rw [submitTransaction_invites]
  have hpred : ∀ i : Invite,
      (((if i.id == inv.id then { i with isUsed := true } else i).token == tok))
        = (i.token == tok) := by
    intro i
    by_cases h2 : (i.id == inv.id) = true <;> simp [h2]
  rw [find?_map_pres _ _ hpred]

/-- A submission that returns a response committed exactly the transaction's
writes: the result components are the created rows, and the resulting store
is the transaction's store. -/
theorem submitRsvp_ok_state {db : Db} {now : Nat} {gen : IdGen} {fx : FxOracle}
    {d : CreateRsvpDto} {resp : RegistrationResponse} {db1 : Db}
    {log : List Dispatch}
    (h : submitRsvp db now gen true fx d = (.ok resp, db1, log)) :
    ∃ inv req st,
      submitDecide db now d = .ok (inv, req, st) ∧
      db1 = (submitTransaction db gen d inv req st).2.2 ∧
      resp.attendee = (submitTransaction db gen d inv req st).1 ∧
      resp.plusOne = (submitTransaction db gen d inv req st).2.1 ∧
      resp.attendee.status = st ∧
      resp.isWaitlisted = decide (st = .WAITLISTED) ∧
      log = emailDispatches fx st d.plusOne.isSome ++ [.addAttendeeToSheet] := by
  unfold submitRsvp at h
  split at h
  · simp at h
  next inv req st hd =>
    rw [if_pos rfl] at h
    split at h
    · simp at h
    next ev hev =>
      simp only [Prod.mk.injEq, Except.ok.injEq] at h
      obtain ⟨h1, h2, h3⟩ := h
      refine ⟨inv, req, st, hd, h2.symm, ?_, ?_, ?_, ?_, h3.symm⟩
      · rw [← h1]
      · rw [← h1]
      · rw [← h1, submitTransaction_attendee]
      · rw [← h1]

/-- Unfolding equation of `submitRsvp` when the decision phase throws. -/
theorem submitRsvp_eq_error {db : Db} {now : Nat} {gen : IdGen} {txOk : Bool}
    {fx : FxOracle} {d : CreateRsvpDto} {e : ApiError}
    (hd : submitDecide db now d = .error e) :
    submitRsvp db now gen txOk fx d = (.error e, db, []) := by
  unfold submitRsvp
  rw [hd]

/-- Unfolding equation of `submitRsvp` once the decision phase returned. -/
theorem submitRsvp_eq_ok {db : Db} {now : Nat} {gen : IdGen} {txOk : Bool}
    {fx : FxOracle} {d : CreateRsvpDto} {inv : Invite} {req : Int}
    {st : AttendeeStatus}
    (hd : submitDecide db now d = .ok (inv, req, st)) :
    submitRsvp db now gen txOk fx d =
      (if txOk then
        match findEvent (submitTransaction db gen d inv req st).2.2 inv.eventId with
        | none =>
          (.error (.BadRequestException "Event not found"),
           (submitTransaction db gen d inv req st).2.2, [])
        | some event =>
          (.ok { attendee := (submitTransaction db gen d inv req st).1
                 plusOne := (submitTransaction db gen d inv req st).2.1
                 event := event
                 isWaitlisted := decide (st = .WAITLISTED) },
           (submitTransaction db gen d inv req st).2.2,
           emailDispatches fx st d.plusOne.isSome ++ [.addAttendeeToSheet])
      else (.error .StoreFailure, db, [])) := by
  unfold submitRsvp
  rw [hd]

/-- C4: whenever `submitRsvp` fails — invalid, used, or expired token, the
re-check of `isUsed`, a missing event in `checkCapacity`, or a store-level
transaction failure — the returned store state is exactly the input state
(so no attendee row, no plus-one row, no counter change, and no consumed
invite is observable) and no side-effect dispatch was attempted.  The one
failure branch sitting after the commit (the step-7 event refetch) is proved
unreachable: the transaction never removes the event row that
`checkCapacity` read. -/
theorem c4_failed_submit_changes_nothing
    (db : Db) (now : Nat) (gen : IdGen) (txOk : Bool) (fx : FxOracle)
    (d : CreateRsvpDto) (err : ApiError)
    (h : (submitRsvp db now gen txOk fx d).1 = .error err) :
    (submitRsvp db now gen txOk fx d).2.1 = db ∧
    (submitRsvp db now gen txOk fx d).2.2 = [] := by
  cases hd : submitDecide db now d with
  | error e =>
    rw [submitRsvp_eq_error hd]
    exact ⟨rfl, rfl⟩
  | ok trip =>
    obtain ⟨inv, req, st⟩ := trip
    obtain ⟨hv, hreq, ev, hev, hst⟩ := submitDecide_ok hd
    have hfind1 : findEvent (submitTransaction db gen d inv req st).2.2 inv.eventId =
        some (if st = .CONFIRMED ∧ (ev.id == inv.eventId) = true then
          { ev with currentRegistrations := ev.currentRegistrations + req }
        else ev) := by
      rw [submitTransaction_findEvent, hev]
      rfl
    rw [submitRsvp_eq_ok hd, hfind1] at h ⊢
    cases txOk with
    | false => exact ⟨rfl, rfl⟩
    | true => simp at h

/-- C8: neither the exception-or-response of `submitRsvp` nor the committed
store state depends on the side-effect oracle: forcing any combination of
calendar, QR, email, or sheet failures can change at most the dispatch log,
never the caller-visible outcome nor the committed admission state, because
steps 8 and 9 run after the commit and wrap every collaborator call in a
`try` whose `catch` only logs. -/
theorem c8_side_effects_never_propagate
    (db : Db) (now : Nat) (gen : IdGen) (txOk : Bool) (d : CreateRsvpDto)
    (fx fx2 : FxOracle) :
    (submitRsvp db now gen txOk fx d).1 = (submitRsvp db now gen txOk fx2 d).1 ∧
    (submitRsvp db now gen txOk fx d).2.1 =
      (submitRsvp db now gen txOk fx2 d).2.1 := by
  cases hd : submitDecide db now d with
  | error e =>
    rw [submitRsvp_eq_error hd, submitRsvp_eq_error hd]
    exact ⟨rfl, rfl⟩
  | ok trip =>
    obtain ⟨inv, req, st⟩ := trip
    rw [submitRsvp_eq_ok hd, submitRsvp_eq_ok hd]
    cases txOk with
    | false => exact ⟨rfl, rfl⟩
    | true =>
      cases hf : findEvent (submitTransaction db gen d inv req st).2.2 inv.eventId with
      | none => exact ⟨rfl, rfl⟩
      | some ev => exact ⟨rfl, rfl⟩

/-- C6: `validateToken` checks existence, then used-state, then expiry, in
that order (an invite that is both used and expired reports AlreadyUsed),
and a second `submitRsvp` against the state committed by a successful one,
using the same token, fails with the AlreadyUsed error and changes nothing —
in particular no second attendee row is ever created. -/
theorem c6_validate_order_and_idempotent_failure :
    (∀ db now tok,
      db.invites.find? (fun i => i.token == tok) = none →
      validateToken db now tok = .error (.NotFoundException "Invalid invite token")) ∧
    (∀ db now tok inv,
      db.invites.find? (fun i => i.token == tok) = some inv →
      validateToken db now tok =
        (if inv.isUsed then
          .error (.BadRequestException "Invite token has already been used")
        else if inv.expiresAt < now then
          .error (.BadRequestException "Invite token has expired")
        else .ok inv)) ∧
    (∀ db now gen fx d now2 gen2 txOk2 fx2 d2,
      ((submitRsvp db now gen true fx d).1.toOption.isSome = true) →
      d2.token = d.token →
      (submitRsvp (submitRsvp db now gen true fx d).2.1 now2 gen2 txOk2 fx2 d2).1 =
        .error (.BadRequestException "Invite token has already been used") ∧
      (submitRsvp (submitRsvp db now gen true fx d).2.1 now2 gen2 txOk2 fx2 d2).2.1 =
        (submitRsvp db now gen true fx d).2.1 ∧
      (submitRsvp (submitRsvp db now gen true fx d).2.1 now2 gen2 txOk2 fx2 d2).2.2 =
        []) := by
  refine ⟨?_, ?_, ?_⟩
  · intro db now tok h
    unfold validateToken
    rw [h]
  · intro db now tok inv h
    unfold validateToken
    rw [h]
  · intro db now gen fx d now2 gen2 txOk2 fx2 d2 hok hTok
    obtain ⟨resp, hresp⟩ : ∃ resp, (submitRsvp db now gen true fx d).1 = .ok resp := by
      cases hr : (submitRsvp db now gen true fx d).1 with
      | error e => rw [hr] at hok; simp [Except.toOption] at hok
      | ok resp => exact ⟨resp, rfl⟩
    have h : submitRsvp db now gen true fx d =
        (.ok resp, (submitRsvp db now gen true fx d).2.1,
         (submitRsvp db now gen true fx d).2.2) := by
      rw [← hresp]
    obtain ⟨inv, req, st, hd, hdb1, _, _, _, _, _⟩ := submitRsvp_ok_state h
    obtain ⟨hval, hreq, ev, hev, hst⟩ := submitDecide_ok hd
    obtain ⟨hfind, hu, hexp⟩ := validateToken_ok hval
    have hfind1 : (submitRsvp db now gen true fx d).2.1.invites.find?
        (fun i => i.token == d.token) = some { inv with isUsed := true } := by
      rw [hdb1, submitTransaction_findInvite, hfind]
      simp
    have hval1 : validateToken (submitRsvp db now gen true fx d).2.1 now2 d2.token =
        .error (.BadRequestException "Invite token has already been used") := by
      unfold validateToken
      rw [hTok, hfind1]
      simp
    have hdec1 : submitDecide (submitRsvp db now gen true fx d).2.1 now2 d2 =
        .error (.BadRequestException "Invite token has already been used") := by
      unfold submitDecide
      rw [hval1]
    rw [submitRsvp_eq_error hdec1]
    exact ⟨rfl, rfl, rfl⟩

/-- C10: every successful submission — CONFIRMED or WAITLISTED alike, since
the invite update in the step-6 transaction is unconditional — leaves the
redeemed invitation marked `isUsed = true` in the committed state, and
validating the same token against that state fails with the AlreadyUsed
error, so a waitlisted registrant can never redeem the token again. -/
theorem c10_invite_consumed_for_every_outcome
    (db : Db) (now : Nat) (gen : IdGen) (fx : FxOracle) (d : CreateRsvpDto)
    (inv : Invite)
    (hv : validateToken db now d.token = .ok inv)
    (hok : (submitRsvp db now gen true fx d).1.toOption.isSome = true) :
    (submitRsvp db now gen true fx d).2.1.invites.find?
        (fun i => i.token == d.token) = some { inv with isUsed := true } ∧
    validateToken (submitRsvp db now gen true fx d).2.1 now d.token =
      .error (.BadRequestException "Invite token has already been used") := by
  obtain ⟨resp, hresp⟩ : ∃ resp, (submitRsvp db now gen true fx d).1 = .ok resp := by
    cases hr : (submitRsvp db now gen true fx d).1 with
    | error e => rw [hr] at hok; simp [Except.toOption] at hok
    | ok resp => exact ⟨resp, rfl⟩
  have h : submitRsvp db now gen true fx d =
      (.ok resp, (submitRsvp db now gen true fx d).2.1,
       (submitRsvp db now gen true fx d).2.2) := by
    rw [← hresp]
  obtain ⟨inv2, req, st, hd, hdb1, _, _, _, _, _⟩ := submitRsvp_ok_state h
  obtain ⟨hval, hreq, ev, hev, hst⟩ := submitDecide_ok hd
  have hinv : inv2 = inv := by
    rw [hv] at hval
    injection hval with h2
    exact h2.symm
  subst hinv
  obtain ⟨hfind, hu, hexp⟩ := validateToken_ok hval
  have hfind1 : (submitRsvp db now gen true fx d).2.1.invites.find?
      (fun i => i.token == d.token) = some { inv2 with isUsed := true } := by
    rw [hdb1, submitTransaction_findInvite, hfind]
    simp
  refine ⟨hfind1, ?_⟩
  unfold validateToken
  rw [hfind1]
  simp

/-- C1: the claim says every counter-mutating operation preserves
`0 ≤ currentRegistrations ≤ capacity` starting from any state satisfying it.
Counterexample: in the store `c1Db` the only event satisfies the invariant
(counter 1, capacity 10), yet cancelling the CONFIRMED attendee `a1`, who has
a plus-one, decrements the counter by 2 and drives it to `-1`, violating the
invariant.  The cancellation path decrements unconditionally, so the bare
counter invariant is not inductive on its own. -/
theorem c1_counterexample :
    eventInv c1Event ∧ c1Db.events = [c1Event] ∧
    (cancelRsvp c1Db "a1").toOption.map (fun db => findEvent db "e1") =
      some (some { c1Event with currentRegistrations := -1 }) ∧
    ¬ eventInv { c1Event with currentRegistrations := -1 } := by
  decide

/-- C2: two submissions against the one-seat event `c2Event`, interleaved so
that both `checkCapacity` reads happen before either transaction commits —
an interleaving the code permits because the capacity check runs outside the
write transaction.  Both submissions are CONFIRMED and the committed counter
reaches 2, exceeding the capacity of 1: the sum of seats ever confirmed
exceeds `capacity`, refuting the concurrency property on the code as written. -/
theorem c2_interleaving_exceeds_capacity :
    (interleavedSubmit2 c2Db 50 c2GenA c2GenB c2Dto1 c2Dto2).map
        (fun r => (r.1, r.2.1, findEvent r.2.2 "e1")) =
      some (AttendeeStatus.CONFIRMED, AttendeeStatus.CONFIRMED,
        some { c2Event with currentRegistrations := 2 }) ∧
    ¬ eventInv { c2Event with currentRegistrations := 2 } := by
  decide

/-- C5: submitting against the full event `c5Event`, whose `waitlistEnabled`
flag is `false`, succeeds with a WAITLISTED attendee.  `submitRsvp` never
reads `waitlistEnabled` (no `RegistrationClosed`-style failure exists in the
service), so the registration is silently waitlisted instead of being
rejected as the claim requires. -/
theorem c5_waitlisted_despite_waitlist_disabled :
    c5Event.waitlistEnabled = false ∧
    c5Event.capacity - c5Event.currentRegistrations < 1 ∧
    ((submitRsvp c5Db 50 c5Gen true fxAllOk c5Dto).1.toOption.map
        (fun r => (r.attendee.status, r.isWaitlisted))) =
      some (AttendeeStatus.WAITLISTED, true) := by
  decide

/-- C9: a committed submission with a companion in which the primary
confirmation email throws.  The attempted dispatches are exactly calendar
generation, the primary QR image, the failed primary email, and the sheet
sync: the companion's notification is never attempted, because all email
dispatches share one `try` block and the throw aborts the rest of it.  This
refutes the claim that a failure of one dispatch never prevents the others. -/
theorem c9_counterexample :
    (submitRsvp c9Db 50 c9Gen true c9Fx c9Dto).2.2 =
      [Dispatch.generateCalendarFile, Dispatch.generateQrCodeImagePrimary,
       Dispatch.sendConfirmationEmail, Dispatch.addAttendeeToSheet] ∧
    Dispatch.sendPlusOneConfirmationEmail ∉ (submitRsvp c9Db 50 c9Gen true c9Fx c9Dto).2.2 ∧
    ((submitRsvp c9Db 50 c9Gen true c9Fx c9Dto).1.toOption.map
        (fun r => (r.attendee.status, r.plusOne.isSome))) =
      some (AttendeeStatus.CONFIRMED, true) := by
  decide

/-- Unfolding equation of `cancelRsvp` on a found, not-yet-cancelled
attendee. -/
theorem cancelRsvp_eq_ok {db : Db} {aid : String} {att : Attendee}
    (hatt : db.attendees.find? (fun a => a.id == aid) = some att)
    (hnc : ¬ att.status = .CANCELLED) :
    cancelRsvp db aid = .ok
      (if att.status = .CONFIRMED then
        { db with
          attendees := db.attendees.map (fun a =>
            if a.id == aid then { a with status := .CANCELLED } else a)
          events := db.events.map (fun e =>
            if e.id == att.eventId then
              { e with currentRegistrations :=
                  e.currentRegistrations - partySize db aid }
            else e) }
      else
        { db with attendees := db.attendees.map (fun a =>
            if a.id == aid then { a with status := .CANCELLED } else a) }) := by
  unfold cancelRsvp
  rw [hatt]
  by_cases hcf : att.status = .CONFIRMED <;> simp [hnc, hcf]

/-- When the primary confirmation email throws, the plus-one notification is
never attempted: both live in the same `try` block, in sequence. -/
theorem emailDispatches_no_plusOne_of_primary_fails (fx : FxOracle)
    (st : AttendeeStatus) (hp : Bool)
    (h : fx.sendConfirmationEmailOk = false) :
    Dispatch.sendPlusOneConfirmationEmail ∉ emailDispatches fx st hp := by
  unfold emailDispatches
  split
  · cases hcal : fx.generateCalendarFileOk <;>
      cases hqr : fx.generateQrCodeImagePrimaryOk <;>
        simp [hcal, hqr, h]
  · simp

/-- When calendar-artifact generation throws, the primary confirmation email
is never attempted (no degraded notification is sent). -/
theorem emailDispatches_no_primary_of_calendar_fails (fx : FxOracle)
    (st : AttendeeStatus) (hp : Bool)
    (h : fx.generateCalendarFileOk = false) :
    Dispatch.sendConfirmationEmail ∉ emailDispatches fx st hp := by
  unfold emailDispatches
  split
  · simp [h]
  · simp

/-- C3: on a submission with a valid invitation and an existing event, with
`requestedSlots` 2 when a companion is included and 1 otherwise: if the
available seats cover the request the outcome is CONFIRMED and the committed
counter is incremented by exactly `requestedSlots`; otherwise the outcome is
WAITLISTED and the counter is untouched.  The party shares one outcome: the
single status sits on the attendee row, the companion row exists exactly
when requested and is owned by that attendee, and the response's
`isWaitlisted` flag is derived from the same status. -/
theorem c3_admission_decision
    (db : Db) (now : Nat) (gen : IdGen) (fx : FxOracle) (d : CreateRsvpDto)
    (inv : Invite) (ev : Event)
    (hv : validateToken db now d.token = .ok inv)
    (he : findEvent db inv.eventId = some ev) :
    (((if d.plusOne.isSome then (2 : Int) else 1) ≤
        ev.capacity - ev.currentRegistrations) →
      ((submitRsvp db now gen true fx d).1.toOption.map (fun r =>
          (r.attendee.status, r.isWaitlisted,
           r.plusOne.map (fun p => p.attendeeId)))) =
        some (AttendeeStatus.CONFIRMED, false,
          (if d.plusOne.isSome then some gen.attendeeId else none)) ∧
      findEvent (submitRsvp db now gen true fx d).2.1 inv.eventId =
        some { ev with currentRegistrations :=
            ev.currentRegistrations + (if d.plusOne.isSome then 2 else 1) }) ∧
    ((ev.capacity - ev.currentRegistrations <
        (if d.plusOne.isSome then (2 : Int) else 1)) →
      ((submitRsvp db now gen true fx d).1.toOption.map (fun r =>
          (r.attendee.status, r.isWaitlisted,
           r.plusOne.map (fun p => p.attendeeId)))) =
        some (AttendeeStatus.WAITLISTED, true,
          (if d.plusOne.isSome then some gen.attendeeId else none)) ∧
      findEvent (submitRsvp db now gen true fx d).2.1 inv.eventId = some ev) := by
  have hu : inv.isUsed = false := (validateToken_ok hv).2.1
  have he2 : db.events.find? (fun e => e.id == inv.eventId) = some ev := he
  have hevid : (ev.id == inv.eventId) = true := by simpa using List.find?_some he2
  have hevid2 : ev.id = inv.eventId := by simpa using hevid
  have hd : submitDecide db now d = .ok (inv, (if d.plusOne.isSome then 2 else 1),
      (if (if d.plusOne.isSome then (2 : Int) else 1) ≤
          ev.capacity - ev.currentRegistrations then
        AttendeeStatus.CONFIRMED else AttendeeStatus.WAITLISTED)) := by
    unfold submitDecide checkCapacity
    rw [hv]
    simp [hu, he]
  constructor
  · intro hc
    rw [if_pos hc] at hd
    have hfind1 : findEvent (submitTransaction db gen d inv
        (if d.plusOne.isSome then 2 else 1) .CONFIRMED).2.2 inv.eventId =
        some { ev with currentRegistrations :=
          ev.currentRegistrations + (if d.plusOne.isSome then 2 else 1) } := by
      rw [submitTransaction_findEvent, he, Option.map_some', if_pos ⟨rfl, hevid⟩]
    rw [submitRsvp_eq_ok hd, hfind1]
    constructor
    · cases hdp : d.plusOne <;>
        simp [Except.toOption, submitTransaction_attendee,
          submitTransaction_plusOne, hdp]
    · simp [hfind1]
  · intro hw
    rw [if_neg (not_le.mpr hw)] at hd
    have hfind2 : findEvent (submitTransaction db gen d inv
        (if d.plusOne.isSome then 2 else 1) .WAITLISTED).2.2 inv.eventId =
        some ev := by
      rw [submitTransaction_findEvent, he, Option.map_some', if_neg (by simp)]
    rw [submitRsvp_eq_ok hd, hfind2]
    constructor
    · cases hdp : d.plusOne <;>
        simp [Except.toOption, submitTransaction_attendee,
          submitTransaction_plusOne, hdp]
    · simp [hfind2]

/-- C7: `cancelRsvp` fails with the NotFound error when no attendee has the
id and with the AlreadyCancelled error when the attendee is already
CANCELLED (re-cancellation is never a no-op); otherwise it sets the status
to CANCELLED and decrements the event counter by the party size (2 with a
plus-one, 1 without) exactly when the prior status was CONFIRMED — so
cancelling a WAITLISTED registrant releases no capacity. -/
theorem c7_cancel_semantics (db : Db) (aid : String) :
    (db.attendees.find? (fun a => a.id == aid) = none →
      cancelRsvp db aid = .error (.BadRequestException "Registration not found")) ∧
    (∀ att, db.attendees.find? (fun a => a.id == aid) = some att →
      (att.status = .CANCELLED →
        cancelRsvp db aid =
          .error (.BadRequestException "Registration is already cancelled")) ∧
      (att.status ≠ .CANCELLED → ∀ db1, cancelRsvp db aid = .ok db1 →
        db1.attendees.find? (fun a => a.id == aid) =
          some { att with status := .CANCELLED } ∧
        ∀ eid e, findEvent db eid = some e →
          findEvent db1 eid =
            some (if att.status = .CONFIRMED ∧ (e.id == att.eventId) = true then
              { e with currentRegistrations :=
                  e.currentRegistrations - partySize db aid }
            else e))) := by
  constructor
  · intro h
    unfold cancelRsvp
    rw [h]
  · intro att hatt
    constructor
    · intro hc
      unfold cancelRsvp
      rw [hatt]
      simp [hc]
    · intro hnc db1 hok
      rw [cancelRsvp_eq_ok hatt hnc] at hok
      injection hok with hok2
      have hattid : (att.id == aid) = true := by simpa using List.find?_some hatt
      have hpredA : ∀ a : Attendee,
          (((if a.id == aid then { a with status := AttendeeStatus.CANCELLED }
            else a).id == aid)) = (a.id == aid) := by
        intro a
        by_cases h2 : (a.id == aid) = true <;> simp [h2]
      constructor
      · have hDatt : db1.attendees = db.attendees.map (fun a =>
            if a.id == aid then { a with status := AttendeeStatus.CANCELLED }
            else a) := by
          rw [← hok2]
          by_cases hcf : att.status = .CONFIRMED <;> simp [hcf]
        rw [hDatt, find?_map_pres _ _ hpredA, hatt, Option.map_some', if_pos hattid]
      · intro eid e hfe
        have hfe2 : db.events.find? (fun x => x.id == eid) = some e := hfe
        have hpredE : ∀ x : Event,
            (((if x.id == att.eventId then
                { x with currentRegistrations :=
                    x.currentRegistrations - partySize db aid }
              else x).id == eid)) = (x.id == eid) := by
          intro x
          by_cases h2 : (x.id == att.eventId) = true <;> simp [h2]
        unfold findEvent
        by_cases hcf : att.status = .CONFIRMED
        · have hDev : db1.events = db.events.map (fun x =>
              if x.id == att.eventId then
                { x with currentRegistrations :=
                    x.currentRegistrations - partySize db aid }
              else x) := by
            rw [← hok2]
            simp [hcf]
          rw [hDev, find?_map_pres _ _ hpredE, hfe2, Option.map_some']
          by_cases h3 : (e.id == att.eventId) = true
          · rw [if_pos h3, if_pos ⟨hcf, h3⟩]
          · rw [if_neg h3, if_neg (fun hco => h3 hco.2)]
        · have hDev : db1.events = db.events := by
            rw [← hok2]
            simp [hcf]
          rw [hDev, hfe2, if_neg (fun hco => hcf hco.1)]

/-- C1 (amended): a submission preserves the event invariant
`0 ≤ currentRegistrations ≤ capacity` starting from any state satisfying it;
a cancellation preserves it provided, additionally, the counter of the
affected event is at least the party size being released when the cancelled
registrant was CONFIRMED.  That extra hypothesis holds in every state whose
counter counts the confirmed seats, and the counterexample above shows it is
exactly what the bare counter invariant is missing on the decrement path. -/
theorem c1_amended_invariant_preservation :
    (∀ db now gen txOk fx d eid e e2,
      findEvent db eid = some e → eventInv e →
      findEvent (submitRsvp db now gen txOk fx d).2.1 eid = some e2 →
      eventInv e2) ∧
    (∀ db aid att db1 eid e e2,
      db.attendees.find? (fun a => a.id == aid) = some att →
      (att.status = .CONFIRMED → (e.id == att.eventId) = true →
        partySize db aid ≤ e.currentRegistrations) →
      cancelRsvp db aid = .ok db1 →
      findEvent db eid = some e → eventInv e →
      findEvent db1 eid = some e2 →
      eventInv e2) := by
  constructor
  · intro db now gen txOk fx d eid e e2 hfe hInv hfe2
    cases hd : submitDecide db now d with
    | error e3 =>
      rw [submitRsvp_eq_error hd] at hfe2
      have hfe3 : findEvent db eid = some e2 := hfe2
      rw [hfe] at hfe3
      injection hfe3 with h2
      subst h2
      exact hInv
    | ok trip =>
      obtain ⟨inv, req, st⟩ := trip
      obtain ⟨hv, hreq, ev, hev, hst⟩ := submitDecide_ok hd
      have hfind1 : findEvent (submitTransaction db gen d inv req st).2.2 inv.eventId =
          some (if st = .CONFIRMED ∧ (ev.id == inv.eventId) = true then
            { ev with currentRegistrations := ev.currentRegistrations + req }
          else ev) := by
        rw [submitTransaction_findEvent, hev]
        rfl
      rw [submitRsvp_eq_ok hd, hfind1] at hfe2
      cases txOk with
      | false =>
        have hfe3 : findEvent db eid = some e2 := hfe2
        rw [hfe] at hfe3
        injection hfe3 with h2
        subst h2
        exact hInv
      | true =>
        have hfe3 : findEvent (submitTransaction db gen d inv req st).2.2 eid =
            some e2 := hfe2
        rw [submitTransaction_findEvent, hfe] at hfe3
        simp only [Option.map_some', Option.some.injEq] at hfe3
        by_cases hcond : st = .CONFIRMED ∧ (e.id == inv.eventId) = true
        · rw [if_pos hcond] at hfe3
          subst hfe3
          have heid : e.id = inv.eventId := by
            have := hcond.2
            simpa using this
          have heq : e = ev := by
            have h4 : db.events.find? (fun x => x.id == eid) = some e := hfe
            have h5e : e.id = eid := by simpa using List.find?_some h4
            have h6 : eid = inv.eventId := h5e ▸ heid
            rw [h6] at hfe
            exact Option.some.inj (hfe ▸ hev)
          have hcap : req ≤ ev.capacity - ev.currentRegistrations := by
            by_contra hno
            rw [if_neg hno] at hst
            rw [hst] at hcond
            cases hcond.1
          have hreqpos : 0 < req := by
            rw [hreq]
            split <;> norm_num
          obtain ⟨h8, h9⟩ := hInv
          subst heq
          constructor
          · simp only
            omega
          · simp only
            omega
        · rw [if_neg hcond] at hfe3
          subst hfe3
          exact hInv
  · intro db aid att db1 eid e e2 hatt hslots hok hfe hInv hfe2
    by_cases hnc : att.status = .CANCELLED
    · exfalso
      have : cancelRsvp db aid =
          .error (.BadRequestException "Registration is already cancelled") := by
        unfold cancelRsvp
        rw [hatt]
        simp [hnc]
      rw [this] at hok
      cases hok
    · rw [cancelRsvp_eq_ok hatt hnc] at hok
      injection hok with hok2
      have hfe3 : db.events.find? (fun x => x.id == eid) = some e := hfe
      have hpredE : ∀ x : Event,
          (((if x.id == att.eventId then
              { x with currentRegistrations :=
                  x.currentRegistrations - partySize db aid }
            else x).id == eid)) = (x.id == eid) := by
        intro x
        by_cases h2 : (x.id == att.eventId) = true <;> simp [h2]
      have hppos : (0 : Int) < partySize db aid := by
        unfold partySize
        split <;> norm_num
      by_cases hcf : att.status = .CONFIRMED
      · have hfe4 : findEvent db1 eid =
            some (if (e.id == att.eventId) = true then
              { e with currentRegistrations :=
                  e.currentRegistrations - partySize db aid }
            else e) := by
          unfold findEvent
          have hDev : db1.events = db.events.map (fun x =>
              if x.id == att.eventId then
                { x with currentRegistrations :=
                    x.currentRegistrations - partySize db aid }
              else x) := by
            rw [← hok2]
            simp [hcf]
          rw [hDev, find?_map_pres _ _ hpredE, hfe3, Option.map_some']
        rw [hfe4] at hfe2
        injection hfe2 with h2
        subst h2
        by_cases h3 : (e.id == att.eventId) = true
        · have hs := hslots hcf h3
          obtain ⟨h8, h9⟩ := hInv
          rw [if_pos h3]
          constructor
          · simp only
            omega
          · simp only
            omega
        · rw [if_neg h3]
          exact hInv
      · have hfe4 : findEvent db1 eid = some e := by
          unfold findEvent
          have hDev : db1.events = db.events := by
            rw [← hok2]
            simp [hcf]
          rw [hDev, hfe3]
        rw [hfe4] at hfe2
        injection hfe2 with h2
        subst h2
        exact hInv

/-- C9 (amended): the email block and the sheet sync are isolated from each
other — every committed submission attempts the sheet sync no matter which
email or artifact call throws — but within the email block the dispatches
run sequentially inside one `try`, so a primary-email failure suppresses the
companion notification and a calendar-artifact failure suppresses the
primary notification itself. -/
theorem c9_amended_dispatch_isolation
    (db : Db) (now : Nat) (gen : IdGen) (fx : FxOracle) (d : CreateRsvpDto)
    (hok : (submitRsvp db now gen true fx d).1.toOption.isSome = true) :
    Dispatch.addAttendeeToSheet ∈ (submitRsvp db now gen true fx d).2.2 ∧
    (fx.sendConfirmationEmailOk = false →
      Dispatch.sendPlusOneConfirmationEmail ∉ (submitRsvp db now gen true fx d).2.2) ∧
    (fx.generateCalendarFileOk = false →
      Dispatch.sendConfirmationEmail ∉ (submitRsvp db now gen true fx d).2.2) := by
  obtain ⟨resp, hresp⟩ : ∃ resp, (submitRsvp db now gen true fx d).1 = .ok resp := by
    cases hr : (submitRsvp db now gen true fx d).1 with
    | error e => rw [hr] at hok; simp [Except.toOption] at hok
    | ok resp => exact ⟨resp, rfl⟩
  have h : submitRsvp db now gen true fx d =
      (.ok resp, (submitRsvp db now gen true fx d).2.1,
       (submitRsvp db now gen true fx d).2.2) := by
    rw [← hresp]
  obtain ⟨inv, req, st, hd, _, _, _, _, _, hlog⟩ := submitRsvp_ok_state h
  rw [hlog]
  refine ⟨?_, ?_, ?_⟩
  · simp
  · intro hfail
    have h1 := emailDispatches_no_plusOne_of_primary_fails fx st d.plusOne.isSome hfail
    simp [List.mem_append, h1]
  · intro hfail
    have h1 := emailDispatches_no_primary_of_calendar_fails fx st d.plusOne.isSome hfail
    simp [List.mem_append, h1]

/-- Witness for C1 (amended): a concrete confirmed submission raises the
counter of `c9Event` to 2 and keeps the invariant, and a concrete
cancellation of the confirmed two-seat party behind the counter 2 of
`c1WEvent` drops it to 0 and keeps the invariant. -/
theorem c1_amended_witness :
    eventInv { c9Event with currentRegistrations := 2 } ∧
    eventInv { c1WEvent with currentRegistrations := 0 } :=
  ⟨c1_amended_invariant_preservation.1 c9Db 50 c9Gen true fxAllOk c9Dto "e1"
      c9Event { c9Event with currentRegistrations := 2 } rfl (by decide) rfl,
   c1_amended_invariant_preservation.2 c1WDb "a1" c1Att c1WDb1 "e1" c1WEvent
      { c1WEvent with currentRegistrations := 0 } rfl (fun _ _ => by decide) rfl
      rfl (by decide) rfl⟩

/-- Witness for C3: a submission with a companion against ten free seats is
CONFIRMED and commits the counter 2, and a single-seat submission against a
full one-seat event is WAITLISTED and leaves the counter alone. -/
theorem c3_witness :
    (((submitRsvp c9Db 50 c9Gen true fxAllOk c9Dto).1.toOption.map (fun r =>
        (r.attendee.status, r.isWaitlisted,
         r.plusOne.map (fun p => p.attendeeId)))) =
      some (AttendeeStatus.CONFIRMED, false,
        (if c9Dto.plusOne.isSome then some c9Gen.attendeeId else none)) ∧
     findEvent (submitRsvp c9Db 50 c9Gen true fxAllOk c9Dto).2.1 c9Inv.eventId =
      some { c9Event with currentRegistrations :=
          c9Event.currentRegistrations + (if c9Dto.plusOne.isSome then 2 else 1) }) ∧
    (((submitRsvp c5Db 50 c5Gen true fxAllOk c5Dto).1.toOption.map (fun r =>
        (r.attendee.status, r.isWaitlisted,
         r.plusOne.map (fun p => p.attendeeId)))) =
      some (AttendeeStatus.WAITLISTED, true,
        (if c5Dto.plusOne.isSome then some c5Gen.attendeeId else none)) ∧
     findEvent (submitRsvp c5Db 50 c5Gen true fxAllOk c5Dto).2.1 c5Inv.eventId =
      some c5Event) :=
  ⟨(c3_admission_decision c9Db 50 c9Gen fxAllOk c9Dto c9Inv c9Event rfl rfl).1
      (by decide),
   (c3_admission_decision c5Db 50 c5Gen fxAllOk c5Dto c5Inv c5Event rfl rfl).2
      (by decide)⟩

/-- Witness for C4: a submission with an unknown token fails and leaves the
store `c2Db` exactly as it was, attempting no dispatch. -/
theorem c4_witness :
    (submitRsvp c2Db 50 c2GenA true fxAllOk c4Dto).2.1 = c2Db ∧
    (submitRsvp c2Db 50 c2GenA true fxAllOk c4Dto).2.2 = [] :=
  c4_failed_submit_changes_nothing c2Db 50 c2GenA true fxAllOk c4Dto
    (.NotFoundException "Invalid invite token") (by rfl)

/-- Witness for C6: an unknown token reports NotFound, a used-and-expired
invite reports AlreadyUsed (used-state is checked before expiry), and
resubmitting the token consumed by a successful registration fails with
AlreadyUsed while changing nothing. -/
theorem c6_witness :
    validateToken c1Db 50 "t1" = .error (.NotFoundException "Invalid invite token") ∧
    validateToken c6Db 50 "t6" =
      .error (.BadRequestException "Invite token has already been used") ∧
    ((submitRsvp (submitRsvp c9Db 50 c9Gen true fxAllOk c9Dto).2.1 60 c2GenB true
        fxAllOk c9Dto).1 =
      .error (.BadRequestException "Invite token has already been used") ∧
     (submitRsvp (submitRsvp c9Db 50 c9Gen true fxAllOk c9Dto).2.1 60 c2GenB true
        fxAllOk c9Dto).2.1 = (submitRsvp c9Db 50 c9Gen true fxAllOk c9Dto).2.1 ∧
     (submitRsvp (submitRsvp c9Db 50 c9Gen true fxAllOk c9Dto).2.1 60 c2GenB true
        fxAllOk c9Dto).2.2 = []) :=
  ⟨c6_validate_order_and_idempotent_failure.1 c1Db 50 "t1" rfl,
   c6_validate_order_and_idempotent_failure.2.1 c6Db 50 "t6" c6Inv rfl,
   c6_validate_order_and_idempotent_failure.2.2 c9Db 50 c9Gen fxAllOk c9Dto 60
     c2GenB true fxAllOk c9Dto (by rfl) rfl⟩

/-- Witness for C7: cancelling an unknown id fails NotFound, re-cancelling a
CANCELLED attendee fails AlreadyCancelled, and cancelling the CONFIRMED
two-seat party of `c1WDb` commits the CANCELLED status and a counter of 0. -/
theorem c7_witness :
    cancelRsvp c1Db "zz" = .error (.BadRequestException "Registration not found") ∧
    cancelRsvp c7Db "a1" =
      .error (.BadRequestException "Registration is already cancelled") ∧
    c1WDb1.attendees.find? (fun a => a.id == "a1") =
      some { c1Att with status := .CANCELLED } ∧
    findEvent c1WDb1 "e1" = some { c1WEvent with currentRegistrations := 0 } :=
  ⟨(c7_cancel_semantics c1Db "zz").1 rfl,
   ((c7_cancel_semantics c7Db "a1").2 c7Att rfl).1 rfl,
   (((c7_cancel_semantics c1WDb "a1").2 c1Att rfl).2 (by decide) c1WDb1 rfl).1,
   (((c7_cancel_semantics c1WDb "a1").2 c1Att rfl).2 (by decide) c1WDb1 rfl).2
     "e1" c1WEvent rfl⟩

/-- Witness for C9 (amended): with the primary email forced to throw, the
sheet sync still runs and the companion notification does not; with the
calendar generation forced to throw, the primary notification does not run
either. -/
theorem c9_amended_witness :
    Dispatch.addAttendeeToSheet ∈ (submitRsvp c9Db 50 c9Gen true c9Fx c9Dto).2.2 ∧
    Dispatch.sendPlusOneConfirmationEmail ∉
      (submitRsvp c9Db 50 c9Gen true c9Fx c9Dto).2.2 ∧
    Dispatch.sendConfirmationEmail ∉
      (submitRsvp c9Db 50 c9Gen true c9FxCal c9Dto).2.2 :=
  ⟨(c9_amended_dispatch_isolation c9Db 50 c9Gen c9Fx c9Dto (by rfl)).1,
   (c9_amended_dispatch_isolation c9Db 50 c9Gen c9Fx c9Dto (by rfl)).2.1 rfl,
   (c9_amended_dispatch_isolation c9Db 50 c9Gen c9FxCal c9Dto (by rfl)).2.2 rfl⟩

/-- Witness for C10: the submission against the full `c5Event` is waitlisted,
yet the invite `c5Inv` is committed as used and revalidating the token fails
with AlreadyUsed. -/
theorem c10_witness :
    (submitRsvp c5Db 50 c5Gen true fxAllOk c5Dto).2.1.invites.find?
        (fun i => i.token == c5Dto.token) = some { c5Inv with isUsed := true } ∧
    validateToken (submitRsvp c5Db 50 c5Gen true fxAllOk c5Dto).2.1 50 c5Dto.token =
      .error (.BadRequestException "Invite token has already been used") :=
  c10_invite_consumed_for_every_outcome c5Db 50 c5Gen fxAllOk c5Dto c5Inv rfl (by rfl)

end EventRsvp
